import Mathlib

/-!
# NovaPress server — shallow embedding and verification

A shallow embedding of the NovaPress Express/MongoDB backend
(`src/unnamed/part_000`, latest draft in the file).  The MongoDB
collections become lists inside a `DB` record; each HTTP handler becomes a
pure function from the current `DB` and the request data to an `Outcome`
(HTTP status + message on failure) and the new `DB`.  JavaScript falsiness
of request strings/numbers (`!status`, `note || default`, `amount` falsy)
is modelled by treating the empty string / `0` as the absent value, and
`a || d` on optional strings by `jsOrS`.  Mongo's `updateOne` / `deleteOne`
touch only the first matching document, modelled by `updateFirst` /
`List.eraseP`.  Free-form text fields (title, description, location,
category) and pure timestamps that no verified property mentions
(`assignedAt`, user `createdAt`) are omitted from the records; everything
the handlers branch on is kept.
-/

namespace Novapress

/-- Result of a handler: success, or an HTTP error status with its message. -/
inductive Outcome where
  | ok : Outcome
  | err : Nat → String → Outcome
deriving DecidableEq, Repr

/-- A user document in the `users` collection (fields the handlers read). -/
structure User where
  email : String
  role : String
  premium : Bool
  isBlocked : Bool
deriving DecidableEq, Repr

/-- An issue document in the `issues` collection.  `id` stands for the
Mongo `_id` (requests carrying a malformed ObjectId are outside the model). -/
structure Issue where
  id : Nat
  reporterEmail : String
  status : String
  priority : String
  assignedStaff : Option String
  upvotes : Nat
  upvoters : List String
  isHidden : Bool
  isBoosted : Bool
  reportedAt : Nat
deriving DecidableEq, Repr

/-- A document in the `timeline` collection. -/
structure TimelineEntry where
  issueId : Nat
  status : String
  message : String
  updatedBy : String
  time : Nat
deriving DecidableEq, Repr

/-- A document in the `payments` collection (boost payments). -/
structure Payment where
  issueId : Option Nat
  userEmail : String
  paymentId : String
  amount : Nat
  purpose : String
  date : Nat
deriving DecidableEq, Repr

/-- The database: the four collections the verified routes touch. -/
structure DB where
  users : List User
  issues : List Issue
  timeline : List TimelineEntry
  payments : List Payment
deriving DecidableEq, Repr

/-- `req.user` as set by the `verifyToken` middleware: the verified email
plus the role/blocked flags read from the user document at that moment. -/
structure ReqUser where
  email : String
  role : String
  isBlocked : Bool
deriving DecidableEq, Repr

/-- A JSON request body for issue creation / editing: every field is
optional, absent fields are `none`.  (`reporterEmail` in a create body is
overwritten by the handler; in an edit body it is `$set` verbatim.) -/
structure Body where
  reporterEmail : Option String := none
  status : Option String := none
  priority : Option String := none
  assignedStaff : Option String := none
  upvotes : Option Nat := none
  upvoters : Option (List String) := none
  isHidden : Option Bool := none
  isBoosted : Option Bool := none
  reportedAt : Option Nat := none
deriving DecidableEq, Repr

/-- JavaScript `o || d` on an optional string: `undefined` and `""` are
falsy, any other string wins. -/
def jsOrS (o : Option String) (d : String) : String :=
  match o with
  | some s => if s = "" then d else s
  | none => d

/-- `usersCollection.findOne({email})`. -/
def findUser (db : DB) (email : String) : Option User :=
  db.users.find? (fun u => u.email == email)

/-- `issuesCollection.findOne({_id})`. -/
def findIssue (db : DB) (id : Nat) : Option Issue :=
  db.issues.find? (fun i => i.id == id)

/-- Mongo `updateOne`: rewrite only the first document matching `p`. -/
def updateFirst (p : α → Bool) (f : α → α) : List α → List α
  | [] => []
  | x :: xs => if p x then f x :: xs else x :: updateFirst p f xs

/-- `user?.premium` — `false` when the lookup returned nothing. -/
def userPremium (u : Option User) : Bool :=
  match u with
  | some x => x.premium
  | none => false

/-- `VALID_STATUS_FLOW` (source lines 116–120): allowed next statuses for a
staff-driven update; a status missing from the table maps to `[]`. -/
def VALID_STATUS_FLOW (s : String) : List String :=
  if s = "pending" then ["in-progress"]
  else if s = "in-progress" then ["resolved"]
  else if s = "resolved" then ["closed"]
  else []

/-- The `Invalid status update` message, naming the allowed next states
(`allowed.join(', ') || 'none'`). -/
def invalidMsg (cur : String) : String :=
  let aj := String.intercalate ", " (VALID_STATUS_FLOW cur)
  "Invalid status update. Allowed: " ++ cur ++ " → " ++ (if aj = "" then "none" else aj)

/-- `PATCH /issues/:id/status` (source lines 596–642).  The caller is
authenticated; the handler re-reads the caller's user document.  An empty
`status` / `note` plays the role of the absent (JS-falsy) field. -/
def updateIssueStatus (db : DB) (callerEmail : String) (id : Nat)
    (status : String) (note : String) (now : Nat) : Outcome × DB :=
  if status = "" then (.err 400 "Status is required", db)
  else
    match findIssue db id with
    | none => (.err 404 "Issue not found", db)
    | some issue =>
      match findUser db callerEmail with
      | none => (.err 403 "Forbidden", db)
      | some user =>
        if user.role = "citizen" ∨ user.role = "user" then
          (.err 403 "Forbidden: Citizens cannot update status", db)
        else if user.role = "staff" ∧ issue.assignedStaff ≠ some callerEmail then
          (.err 403 "Forbidden: Not assigned to you", db)
        else if user.role = "staff" ∧ status ∉ VALID_STATUS_FLOW issue.status then
          (.err 400 (invalidMsg issue.status), db)
        else
          (.ok,
           { db with
             issues := updateFirst (fun i => i.id == id)
               (fun i => { i with status := status }) db.issues,
             timeline := db.timeline ++
               [{ issueId := id, status := status,
                  message := if note = "" then "Status changed to " ++ status else note,
                  updatedBy := callerEmail, time := now }] })

/-- `PATCH /issues/upvote/:id` (source lines 537–568). -/
def upvoteIssue (db : DB) (callerEmail : String) (id : Nat) : Outcome × DB :=
  match findIssue db id with
  | none => (.err 404 "Issue not found", db)
  | some issue =>
    if issue.reporterEmail = callerEmail then
      (.err 403 "You cannot upvote your own issue", db)
    else if callerEmail ∈ issue.upvoters then
      (.err 400 "You already upvoted this issue", db)
    else
      (.ok,
       { db with
         issues := updateFirst (fun i => i.id == id)
           (fun i => { i with upvotes := i.upvotes + 1,
                              upvoters := i.upvoters ++ [callerEmail] }) db.issues })

/-- `POST /issues` (source lines 379–413), including the `checkBlocked`
middleware.  `reporterEmail` is overwritten with the caller's email; the
`|| default` initialisations keep any truthy client-supplied value; the
quota check counts every existing issue of the reporter. -/
def createIssue (db : DB) (caller : ReqUser) (body : Body)
    (newId now : Nat) : Outcome × DB :=
  if caller.isBlocked then (.err 403 "Your account is blocked", db)
  else
    let user := findUser db caller.email
    let issueCount := (db.issues.filter (fun i => i.reporterEmail == caller.email)).length
    if ¬ userPremium user ∧ 3 ≤ issueCount then
      (.err 403 "Free user limit reached. Upgrade to premium.", db)
    else
      let issue : Issue :=
        { id := newId,
          reporterEmail := caller.email,
          status := jsOrS body.status "pending",
          priority := jsOrS body.priority "normal",
          assignedStaff := body.assignedStaff,
          upvotes := body.upvotes.getD 0,
          upvoters := body.upvoters.getD [],
          isHidden := false,
          isBoosted := body.isBoosted.getD false,
          reportedAt := now }
      (.ok,
       { db with
         issues := db.issues ++ [issue],
         timeline := db.timeline ++
           [{ issueId := newId, status := issue.status, message := "Issue reported",
              updatedBy := caller.email, time := now }] })

/-- `PATCH /issues/assign/:id` (source lines 415–477), including the
`requireRole("admin")` middleware.  An empty `staffEmail` is the absent
(JS-falsy) field. -/
def assignIssue (db : DB) (caller : ReqUser) (id : Nat)
    (staffEmail : String) (now : Nat) : Outcome × DB :=
  if caller.role ≠ "admin" then (.err 403 "Forbidden - Role required: admin", db)
  else if staffEmail = "" then (.err 400 "Staff email required", db)
  else
    match db.users.find? (fun u => u.email == staffEmail && u.role == "staff") with
    | none => (.err 404 "Staff not found", db)
    | some _ =>
      match findIssue db id with
      | none => (.err 404 "Issue not found", db)
      | some _ =>
        (.ok,
         { db with
           issues := updateFirst (fun i => i.id == id)
             (fun i => { i with assignedStaff := some staffEmail,
                                status := "in-progress" }) db.issues,
           timeline := db.timeline ++
             [{ issueId := id, status := "in-progress",
                message := "Assigned to staff " ++ staffEmail,
                updatedBy := caller.email, time := now }] })

/-- `POST /issues/:id/boost` (source lines 645–700), including the
`checkBlocked` middleware.  `paymentId = ""` / `amount = 0` are the
JS-falsy request fields. -/
def boostIssue (db : DB) (caller : ReqUser) (id : Nat)
    (paymentId : String) (amount : Nat) (now : Nat) : Outcome × DB :=
  if caller.isBlocked then (.err 403 "Your account is blocked", db)
  else if paymentId = "" ∨ amount = 0 then
    (.err 400 "paymentId and amount required", db)
  else
    match findIssue db id with
    | none => (.err 404 "Issue not found", db)
    | some issue =>
      if issue.isBoosted = true ∨ issue.priority = "high" then
        (.err 400 "Issue already boosted", db)
      else
        (.ok,
         { db with
           payments := db.payments ++
             [{ issueId := some id, userEmail := caller.email, paymentId := paymentId,
                amount := amount, purpose := "issue_boost", date := now }],
           issues := updateFirst (fun i => i.id == id)
             (fun i => { i with priority := "high", isBoosted := true }) db.issues,
           timeline := db.timeline ++
             [{ issueId := id, status := "boosted",
                message := "Priority boosted via payment",
                updatedBy := caller.email, time := now }] })

/-- Mongo `$set: req.body` on an issue: every field present in the body
overwrites the stored one, absent fields are untouched. -/
def applyPatch (p : Body) (i : Issue) : Issue :=
  { i with
    reporterEmail := p.reporterEmail.getD i.reporterEmail,
    status := p.status.getD i.status,
    priority := p.priority.getD i.priority,
    assignedStaff := match p.assignedStaff with
      | some s => some s
      | none => i.assignedStaff,
    upvotes := p.upvotes.getD i.upvotes,
    upvoters := p.upvoters.getD i.upvoters,
    isHidden := p.isHidden.getD i.isHidden,
    isBoosted := p.isBoosted.getD i.isBoosted,
    reportedAt := p.reportedAt.getD i.reportedAt }

/-- `PATCH /issues/edit/:id` (source lines 810–823): reporter-only,
`$set`s the raw body, writes no timeline entry. -/
def editIssue (db : DB) (callerEmail : String) (id : Nat) (body : Body) : Outcome × DB :=
  match findIssue db id with
  | none => (.err 404 "Not found", db)
  | some issue =>
    if issue.reporterEmail ≠ callerEmail then (.err 403 "Not your issue", db)
    else
      (.ok, { db with issues := updateFirst (fun i => i.id == id) (applyPatch body) db.issues })

/-- The effect of a successful `DELETE /issues/:id`: `deleteOne` removes
the first matching document and a `deleted` timeline entry is appended. -/
def doDelete (db : DB) (callerEmail : String) (id : Nat) (now : Nat) : DB :=
  { db with
    issues := db.issues.eraseP (fun i => i.id == id),
    timeline := db.timeline ++
      [{ issueId := id, status := "deleted",
         message := "Issue deleted by " ++ callerEmail,
         updatedBy := callerEmail, time := now }] }

/-- `DELETE /issues/:id` (source lines 825–856).  Note the branch order:
a caller who is the reporter is judged by the pending-only rule even when
their role is admin. -/
def deleteIssue (db : DB) (callerEmail : String) (id : Nat) (now : Nat) : Outcome × DB :=
  match findIssue db id with
  | none => (.err 404 "Not found", db)
  | some issue =>
    match findUser db callerEmail with
    | none => (.err 403 "Forbidden", db)
    | some user =>
      if callerEmail = issue.reporterEmail then
        if issue.status ≠ "pending" then
          (.err 400 "Only pending issues can be deleted by reporter", db)
        else (.ok, doDelete db callerEmail id now)
      else if user.role ≠ "admin" then (.err 403 "Unauthorized", db)
      else (.ok, doDelete db callerEmail id now)

/-- Response of the role-lookup route: a role payload or an HTTP error. -/
inductive RoleResponse where
  | ok : String → RoleResponse
  | err : Nat → String → RoleResponse
deriving DecidableEq, Repr

/-- `GET /users/role/:email` (source lines 329–339): a requester asking
about someone else is answered `citizen`; otherwise `user?.role || "citizen"`. -/
def getUserRole (db : DB) (requesterEmail targetEmail : String) : RoleResponse :=
  if requesterEmail ≠ targetEmail then .ok "citizen"
  else
    match findUser db targetEmail with
    | some u => .ok (if u.role = "" then "citizen" else u.role)
    | none => .ok "citizen"

/-- `PATCH /users/membership/:email` (source lines 785–805): self-only;
sets `premium` to `status === "premium"`. -/
def updateMembership (db : DB) (callerEmail targetEmail : String)
    (status : String) : Outcome × DB :=
  if status = "" then (.err 400 "Missing status", db)
  else if callerEmail ≠ targetEmail then (.err 403 "Unauthorized", db)
  else
    (.ok,
     { db with
       users := updateFirst (fun u => u.email == targetEmail)
         (fun u => { u with premium := status == "premium" }) db.users })

/-- The claimed upvote invariant of an issue: no duplicate upvoters, the
reporter never among them, and the counter equal to the list length. -/
def upvoteInv (i : Issue) : Prop :=
  i.upvoters.Nodup ∧ i.reporterEmail ∉ i.upvoters ∧ i.upvotes = i.upvoters.length

instance (i : Issue) : Decidable (upvoteInv i) := by
  unfold upvoteInv
  infer_instance

/-! Sample documents used to witness the theorems on concrete inputs. -/

/-- A citizen user. -/
def uCitizen : User := { email := "cit@x", role := "citizen", premium := false, isBlocked := false }

/-- A staff user. -/
def uStaff : User := { email := "staff@x", role := "staff", premium := false, isBlocked := false }

/-- An admin user. -/
def uAdmin : User := { email := "admin@x", role := "admin", premium := false, isBlocked := false }

/-- A pending issue reported by the citizen and assigned to the staff user. -/
def iPending : Issue :=
  { id := 1, reporterEmail := "cit@x", status := "pending", priority := "normal",
    assignedStaff := some "staff@x", upvotes := 0, upvoters := [], isHidden := false,
    isBoosted := false, reportedAt := 0 }

/-- A database with the three users and the pending issue. -/
def db1 : DB := { users := [uCitizen, uStaff, uAdmin], issues := [iPending], timeline := [], payments := [] }

/-- An empty database. -/
def dbEmpty : DB := { users := [], issues := [], timeline := [], payments := [] }

/-- The citizen as the authenticated request user. -/
def reqCitizen : ReqUser := { email := "cit@x", role := "citizen", isBlocked := false }

/-- The admin as the authenticated request user. -/
def reqAdmin : ReqUser := { email := "admin@x", role := "admin", isBlocked := false }

/-- A creation body seeding the vote fields: two copies of the caller's own
email as upvoters and no counter. -/
def bodyBadVotes : Body := { upvoters := some ["cit@x", "cit@x"] }

/-- The issue the create handler stores for `bodyBadVotes`. -/
def issueBadVotes : Issue :=
  { id := 1, reporterEmail := "cit@x", status := "pending", priority := "normal",
    assignedStaff := none, upvotes := 0, upvoters := ["cit@x", "cit@x"], isHidden := false,
    isBoosted := false, reportedAt := 0 }

/-- A database where the citizen already has three issues. -/
def db3 : DB :=
  { users := [uCitizen],
    issues := [iPending, { iPending with id := 2 }, { iPending with id := 3 }],
    timeline := [], payments := [] }

/-- A creation body trying to override every server-controlled field. -/
def bodyOverride : Body :=
  { status := some "resolved", priority := some "high", upvotes := some 5,
    reportedAt := some 99 }

/-- The issue the create handler stores for `bodyOverride` at time 7. -/
def issueOverride : Issue :=
  { id := 1, reporterEmail := "cit@x", status := "resolved", priority := "high",
    assignedStaff := none, upvotes := 5, upvoters := [], isHidden := false,
    isBoosted := false, reportedAt := 7 }

/-- An admin who reported their own issue. -/
def uAdminReporter : User := { email := "ar@x", role := "admin", premium := false, isBlocked := false }

/-- A resolved issue reported by that admin. -/
def iResolvedByAdmin : Issue :=
  { id := 2, reporterEmail := "ar@x", status := "resolved", priority := "normal",
    assignedStaff := none, upvotes := 0, upvoters := [], isHidden := false,
    isBoosted := false, reportedAt := 0 }

/-- A database holding the admin-reporter and their resolved issue. -/
def dbAdminReporter : DB :=
  { users := [uAdminReporter], issues := [iResolvedByAdmin], timeline := [], payments := [] }

/-- An edit body overwriting the owner field. -/
def bodyStealReporter : Body := { reporterEmail := some "evil@x" }

/-! Helper lemmas about the list primitives standing for Mongo operations. -/

theorem updateFirst_find? {α : Type} (p : α → Bool) (f : α → α) (l : List α)
    (hf : ∀ a, p a = true → p (f a) = true) :
    (updateFirst p f l).find? p = (l.find? p).map f := by
  induction l with
  | nil => rfl
  | cons x xs ih =>
    by_cases hx : p x = true
    · simp [updateFirst, hx, List.find?_cons_of_pos, hf x hx]
    · have hx' : p x = false := by
        cases h : p x
        · rfl
        · exact absurd h hx
      simp only [updateFirst, hx', if_neg, Bool.false_eq_true, ite_false]
      rw [List.find?_cons_of_neg _ hx, List.find?_cons_of_neg _ hx, ih]

theorem updateFirst_map {α β : Type} (p : α → Bool) (f : α → α) (g : α → β) (l : List α)
    (hg : ∀ a, p a = true → g (f a) = g a) :
    (updateFirst p f l).map g = l.map g := by
  induction l with
  | nil => rfl
  | cons x xs ih =>
    by_cases hx : p x = true
    · simp [updateFirst, hx, hg x hx]
    · have hx' : p x = false := by
        cases h : p x
        · rfl
        · exact absurd h hx
      simp [updateFirst, hx', ih]

theorem length_filter_and_le {α : Type} (p q : α → Bool) (l : List α) :
    (l.filter (fun a => p a && q a)).length ≤ (l.filter p).length := by
  induction l with
  | nil => simp
  | cons x xs ih =>
    by_cases hp : p x = true
    · by_cases hq : q x = true
      · simp [List.filter_cons, hp, hq]
        omega
      · have hq' : q x = false := by
          cases h : q x
          · rfl
          · exact absurd h hq
        simp [List.filter_cons, hp, hq']
        omega
    · have hp' : p x = false := by
        cases h : p x
        · rfl
        · exact absurd h hp
      simp [List.filter_cons, hp']
      exact ih

/-- C9: on the role-lookup route, whenever the requester's email differs
from the target email the response is a success carrying role `"citizen"`,
for every database — hence independent of the requester's stored role (even
admin) and of the target's actual stored role, which is never revealed. -/
theorem c9_role_lookup_other_always_citizen (db : DB) (requesterEmail targetEmail : String)
    (h : requesterEmail ≠ targetEmail) :
    getUserRole db requesterEmail targetEmail = RoleResponse.ok "citizen" := by
  simp [getUserRole, h]

theorem c9_role_lookup_other_always_citizen_witness :
    ("admin@x" : String) ≠ "staff@x" ∧
    getUserRole db1 "admin@x" "staff@x" = RoleResponse.ok "citizen" :=
  ⟨by decide, c9_role_lookup_other_always_citizen db1 "admin@x" "staff@x" (by decide)⟩

/-- C10: on the membership-update route, a self-request with a non-empty
`status` succeeds and sets the caller's premium flag to `status == "premium"`;
in particular any other status value (e.g. `"free"`) sets it to `false`, so a
user can unset their own premium flag and the flag is not monotonic. -/
theorem c10_membership_self_sets_premium (db : DB) (email status : String) (u : User)
    (hs : status ≠ "") (hu : findUser db email = some u) :
    (updateMembership db email email status).1 = Outcome.ok ∧
    findUser (updateMembership db email email status).2 email =
      some { u with premium := status == "premium" } ∧
    (status ≠ "premium" →
      findUser (updateMembership db email email status).2 email =
        some { u with premium := false }) := by
  have hpre : ∀ v : User, (v.email == email) = true →
      ((({ v with premium := status == "premium" }) : User).email == email) = true :=
    fun v hv => hv
  have h2 : (updateMembership db email email status).2 =
      { db with
        users := updateFirst (fun v => v.email == email)
          (fun v => { v with premium := status == "premium" }) db.users } := by
    simp [updateMembership, hs]
  have hfind : findUser (updateMembership db email email status).2 email =
      some { u with premium := status == "premium" } := by
    rw [h2]
    unfold findUser at hu ⊢
    exact (updateFirst_find? _ _ db.users hpre).trans (by rw [hu]; rfl)
  refine ⟨?_, hfind, ?_⟩
  · simp [updateMembership, hs]
  · intro hnp
    rw [hfind]
    have : (status == "premium") = false := beq_eq_false_iff_ne.mpr hnp
    rw [this]

theorem c10_membership_self_sets_premium_witness :
    ("free" : String) ≠ "" ∧
    findUser db1 "cit@x" = some uCitizen ∧
    findUser (updateMembership db1 "cit@x" "cit@x" "free").2 "cit@x" =
      some { uCitizen with premium := false } := by
  refine ⟨by decide, rfl, ?_⟩
  exact (c10_membership_self_sets_premium db1 "cit@x" "free" uCitizen (by decide) rfl).2.2 (by decide)

/-- C1: on an authenticated status update of an existing issue — a citizen
caller always gets Forbidden with the database unchanged; a staff caller not
matching `assignedStaff` gets Forbidden unchanged; a staff caller whose
target is not the allowed next state of `VALID_STATUS_FLOW` gets the
invalid-transition error naming the allowed next states, unchanged; an admin
caller may set any status; and every successful update appends exactly one
timeline entry whose message is the supplied note when non-empty and
`"Status changed to {status}"` otherwise. -/
theorem c1_status_update_access (db : DB) (callerEmail : String) (id : Nat)
    (status note : String) (now : Nat) (issue : Issue) (user : User)
    (hs : status ≠ "")
    (hi : findIssue db id = some issue)
    (hu : findUser db callerEmail = some user) :
    (user.role = "citizen" →
      updateIssueStatus db callerEmail id status note now
        = (.err 403 "Forbidden: Citizens cannot update status", db)) ∧
    (user.role = "staff" → issue.assignedStaff ≠ some callerEmail →
      updateIssueStatus db callerEmail id status note now
        = (.err 403 "Forbidden: Not assigned to you", db)) ∧
    (user.role = "staff" → issue.assignedStaff = some callerEmail →
      status ∉ VALID_STATUS_FLOW issue.status →
      updateIssueStatus db callerEmail id status note now
        = (.err 400 (invalidMsg issue.status), db)) ∧
    (user.role = "admin" →
      (updateIssueStatus db callerEmail id status note now).1 = Outcome.ok) ∧
    (∀ db', updateIssueStatus db callerEmail id status note now = (.ok, db') →
      db'.timeline = db.timeline ++
        [{ issueId := id, status := status,
           message := if note = "" then "Status changed to " ++ status else note,
           updatedBy := callerEmail, time := now }]) := by
  refine ⟨?_, ?_, ?_, ?_, ?_⟩
  · intro hc
    simp [updateIssueStatus, hi, hu, hs, hc]
  · intro hst hna
    simp [updateIssueStatus, hi, hu, hs, hst, hna]
  · intro hst ha hflow
    simp [updateIssueStatus, hi, hu, hs, hst, ha, hflow]
  · intro had
    simp [updateIssueStatus, hi, hu, hs, had]
  · intro db' hdb
    simp only [updateIssueStatus, hi, hu] at hdb
    rw [if_neg hs] at hdb
    split_ifs at hdb ⊢ <;>
      (injection hdb with hfst hsnd
       first
         | exact Outcome.noConfusion hfst
         | rw [← hsnd])

theorem c1_status_update_access_witness :
    ("closed" : String) ≠ "" ∧
    findIssue db1 1 = some iPending ∧
    findUser db1 "staff@x" = some uStaff ∧
    updateIssueStatus db1 "staff@x" 1 "closed" "" 5
      = (.err 400 (invalidMsg "pending"), db1) := by
  refine ⟨by decide, rfl, rfl, ?_⟩
  exact (c1_status_update_access db1 "staff@x" 1 "closed" "" 5 iPending uStaff
    (by decide) rfl rfl).2.2.1 rfl rfl (by decide)

/-- C2 counterexample: the claim's closing invariant ("for every issue,
`upvoters` has no duplicates, never contains `reporterEmail`, and `upvotes`
equals the length of `upvoters`") fails on the code: the create handler keeps
client-supplied vote fields (`issue.upvotes = issue.upvotes || 0`,
`issue.upvoters = issue.upvoters || []`), so a creation body seeding
`upvoters` with two copies of the reporter's own email is stored verbatim. -/
theorem c2_upvote_invariant_counterexample :
    (createIssue dbEmpty reqCitizen bodyBadVotes 1 0).1 = Outcome.ok ∧
    (createIssue dbEmpty reqCitizen bodyBadVotes 1 0).2.issues = [issueBadVotes] ∧
    issueBadVotes.reporterEmail ∈ issueBadVotes.upvoters ∧
    ¬ issueBadVotes.upvoters.Nodup ∧
    issueBadVotes.upvotes ≠ issueBadVotes.upvoters.length := by decide

/-- C2 (amended): the upvote handler behaves exactly as claimed — reporter
self-upvote fails Forbidden with a distinct own-issue message, a caller
already in `upvoters` fails DuplicateVote with the database unchanged, and
otherwise the count is incremented and the caller appended — and the upvote
operation preserves the no-duplicates / no-reporter / count-equals-length
invariant; but the invariant does not hold of every issue, because the
create handler keeps client-seeded vote fields (and the edit handler `$set`s
arbitrary fields), so it is only an invariant of the upvote path. -/
theorem c2_upvote_checks_and_preservation (db : DB) (callerEmail : String)
    (id : Nat) (issue : Issue) (hi : findIssue db id = some issue) :
    (issue.reporterEmail = callerEmail →
      upvoteIssue db callerEmail id = (.err 403 "You cannot upvote your own issue", db)) ∧
    (issue.reporterEmail ≠ callerEmail → callerEmail ∈ issue.upvoters →
      upvoteIssue db callerEmail id = (.err 400 "You already upvoted this issue", db)) ∧
    (issue.reporterEmail ≠ callerEmail → callerEmail ∉ issue.upvoters →
      (upvoteIssue db callerEmail id).1 = Outcome.ok ∧
      findIssue (upvoteIssue db callerEmail id).2 id =
        some { issue with upvotes := issue.upvotes + 1,
                          upvoters := issue.upvoters ++ [callerEmail] }) ∧
    (upvoteInv issue →
      ∀ i, findIssue (upvoteIssue db callerEmail id).2 id = some i → upvoteInv i) := by
  have hA : issue.reporterEmail = callerEmail →
      upvoteIssue db callerEmail id = (.err 403 "You cannot upvote your own issue", db) := by
    intro h
    simp [upvoteIssue, hi, h]
  have hB : issue.reporterEmail ≠ callerEmail → callerEmail ∈ issue.upvoters →
      upvoteIssue db callerEmail id = (.err 400 "You already upvoted this issue", db) := by
    intro h1 h2
    simp [upvoteIssue, hi, h1, h2]
  have hC : issue.reporterEmail ≠ callerEmail → callerEmail ∉ issue.upvoters →
      (upvoteIssue db callerEmail id).1 = Outcome.ok ∧
      findIssue (upvoteIssue db callerEmail id).2 id =
        some { issue with upvotes := issue.upvotes + 1,
                          upvoters := issue.upvoters ++ [callerEmail] } := by
    intro h1 h2
    have hres1 : (upvoteIssue db callerEmail id).1 = Outcome.ok := by
      simp [upvoteIssue, hi, h1, h2]
    have hres2 : (upvoteIssue db callerEmail id).2 =
        { db with
          issues := updateFirst (fun i => i.id == id)
            (fun i => { i with upvotes := i.upvotes + 1,
                               upvoters := i.upvoters ++ [callerEmail] }) db.issues } := by
      simp [upvoteIssue, hi, h1, h2]
    have hi' : db.issues.find? (fun i => i.id == id) = some issue := hi
    have hstep := updateFirst_find? (fun i => i.id == id)
      (fun i => { i with upvotes := i.upvotes + 1,
                         upvoters := i.upvoters ++ [callerEmail] })
      db.issues (fun a ha => ha)
    refine ⟨hres1, ?_⟩
    show (upvoteIssue db callerEmail id).2.issues.find? (fun i => i.id == id) = _
    rw [hres2]
    exact hstep.trans (by rw [hi']; rfl)
  have hD : upvoteInv issue →
      ∀ i, findIssue (upvoteIssue db callerEmail id).2 id = some i → upvoteInv i := by
    intro hinv i hfi
    by_cases hrep : issue.reporterEmail = callerEmail
    · rw [hA hrep] at hfi
      rw [hi] at hfi
      cases hfi
      exact hinv
    · by_cases hmem : callerEmail ∈ issue.upvoters
      · rw [hB hrep hmem] at hfi
        rw [hi] at hfi
        cases hfi
        exact hinv
      · rw [(hC hrep hmem).2] at hfi
        cases hfi
        refine ⟨?_, ?_, ?_⟩
        · rw [List.nodup_append]
          exact ⟨hinv.1, List.nodup_singleton _,
            fun a hax hay => hmem ((List.mem_singleton.mp hay) ▸ hax)⟩
        · simp only [List.mem_append, List.mem_singleton]
          exact fun h => h.elim (fun hx => hinv.2.1 hx) (fun hx => hrep hx)
        · simp [hinv.2.2]
  exact ⟨hA, hB, hC, hD⟩

theorem c2_upvote_checks_and_preservation_witness :
    findIssue db1 1 = some iPending ∧
    (upvoteIssue db1 "staff@x" 1).1 = Outcome.ok ∧
    findIssue (upvoteIssue db1 "staff@x" 1).2 1 =
      some { iPending with upvotes := 1, upvoters := ["staff@x"] } := by
  refine ⟨rfl, ?_, ?_⟩
  · exact ((c2_upvote_checks_and_preservation db1 "staff@x" 1 iPending rfl).2.2.1
      (by decide) (by decide)).1
  · exact ((c2_upvote_checks_and_preservation db1 "staff@x" 1 iPending rfl).2.2.1
      (by decide) (by decide)).2

/-- C3: a non-blocked authenticated caller is rejected with the quota error
whenever they are not premium and already have at least 3 issues in the open
set (status not closed — deleted issues are hard-removed, so they are not in
the collection at all); in particular a non-premium caller with exactly 3
existing issues is rejected, and a premium caller is never rejected (the
creation succeeds).  The code counts every existing issue of the reporter,
which can only reject more, never fewer, than the open-set reading. -/
theorem c3_quota (db : DB) (caller : ReqUser) (body : Body) (newId now : Nat) (u : User)
    (hb : caller.isBlocked = false)
    (hu : findUser db caller.email = some u) :
    (u.premium = false →
      3 ≤ (db.issues.filter
            (fun i => i.reporterEmail == caller.email && i.status != "closed")).length →
      createIssue db caller body newId now
        = (.err 403 "Free user limit reached. Upgrade to premium.", db)) ∧
    (u.premium = false →
      (db.issues.filter (fun i => i.reporterEmail == caller.email)).length = 3 →
      createIssue db caller body newId now
        = (.err 403 "Free user limit reached. Upgrade to premium.", db)) ∧
    (u.premium = true → (createIssue db caller body newId now).1 = Outcome.ok) := by
  refine ⟨?_, ?_, ?_⟩
  · intro hp h3
    have hle : 3 ≤ (db.issues.filter (fun i => i.reporterEmail == caller.email)).length :=
      le_trans h3 (length_filter_and_le (fun i => i.reporterEmail == caller.email)
        (fun i => i.status != "closed") db.issues)
    simp [createIssue, hb, hu, userPremium, hp, hle]
  · intro hp h3
    have hle : 3 ≤ (db.issues.filter (fun i => i.reporterEmail == caller.email)).length := by
      rw [h3]
    simp [createIssue, hb, hu, userPremium, hp, hle]
  · intro hp
    simp [createIssue, hb, hu, userPremium, hp]

theorem c3_quota_witness :
    reqCitizen.isBlocked = false ∧
    findUser db3 "cit@x" = some uCitizen ∧
    uCitizen.premium = false ∧
    (db3.issues.filter (fun i => i.reporterEmail == "cit@x")).length = 3 ∧
    createIssue db3 reqCitizen {} 4 9
      = (.err 403 "Free user limit reached. Upgrade to premium.", db3) := by
  refine ⟨rfl, rfl, rfl, by decide, ?_⟩
  exact (c3_quota db3 reqCitizen {} 4 9 uCitizen rfl rfl).2.1 rfl (by decide)

/-- C4 counterexample: the claim "regardless of the fields supplied by the
client, the stored issue has status=pending, priority=normal, upvotes=0"
fails: the handler initialises with `issue.status = issue.status || "pending"`
(and likewise priority/upvotes/upvoters), so truthy client values survive.  A
body supplying status/priority/upvotes is stored verbatim. -/
theorem c4_create_defaults_counterexample :
    (createIssue dbEmpty reqCitizen bodyOverride 1 7).1 = Outcome.ok ∧
    (createIssue dbEmpty reqCitizen bodyOverride 1 7).2.issues = [issueOverride] ∧
    issueOverride.status ≠ "pending" ∧
    issueOverride.priority ≠ "normal" ∧
    issueOverride.upvotes ≠ 0 := by decide

/-- C4 (amended): on every successful creation the stored issue has a
server-assigned `reportedAt = now` (a client-supplied `reportedAt` is
ignored, as the stored issue does not depend on `body.reportedAt`),
`isHidden = false`, `reporterEmail` equal to the caller's email, and
status/priority/upvotes/upvoters equal to the client value when a truthy one
was supplied and to the defaults pending/normal/0/[] otherwise; and exactly
one timeline entry with message "Issue reported" is appended for the new
issue's id. -/
theorem c4_create_initialization (db : DB) (caller : ReqUser) (body : Body)
    (newId now : Nat)
    (hok : (createIssue db caller body newId now).1 = Outcome.ok) :
    (createIssue db caller body newId now).2.issues = db.issues ++
      [{ id := newId, reporterEmail := caller.email,
         status := jsOrS body.status "pending",
         priority := jsOrS body.priority "normal",
         assignedStaff := body.assignedStaff,
         upvotes := body.upvotes.getD 0,
         upvoters := body.upvoters.getD [],
         isHidden := false,
         isBoosted := body.isBoosted.getD false,
         reportedAt := now }] ∧
    (createIssue db caller body newId now).2.timeline = db.timeline ++
      [{ issueId := newId, status := jsOrS body.status "pending",
         message := "Issue reported", updatedBy := caller.email, time := now }] := by
  by_cases hb : caller.isBlocked = true
  · exfalso
    simp [createIssue, hb] at hok
  · have hb' : caller.isBlocked = false := by
      cases h : caller.isBlocked
      · rfl
      · exact absurd h hb
    by_cases hq : ¬ userPremium (findUser db caller.email) = true ∧
        3 ≤ (db.issues.filter (fun i => i.reporterEmail == caller.email)).length
    · exfalso
      simp only [createIssue, hb', Bool.false_eq_true, if_false, if_pos hq] at hok
      exact Outcome.noConfusion hok
    · constructor
      · simp only [createIssue, hb', Bool.false_eq_true, if_false, if_neg hq]
      · simp only [createIssue, hb', Bool.false_eq_true, if_false, if_neg hq]

theorem c4_create_initialization_witness :
    (createIssue dbEmpty reqCitizen bodyOverride 1 7).1 = Outcome.ok ∧
    (createIssue dbEmpty reqCitizen bodyOverride 1 7).2.timeline =
      [{ issueId := 1, status := "resolved", message := "Issue reported",
         updatedBy := "cit@x", time := 7 }] := by
  refine ⟨rfl, ?_⟩
  have h := (c4_create_initialization dbEmpty reqCitizen bodyOverride 1 7 rfl).2
  simpa using h

/-- C5 counterexample: the claim "deletion succeeds iff (caller is reporter
AND status pending) OR caller role is admin" fails for an admin who is also
the reporter: the handler tests the reporter branch first, so an admin
deleting their own resolved issue is rejected with the pending-only error
even though the claim says an admin always may delete. -/
theorem c5_delete_counterexample :
    findUser dbAdminReporter "ar@x" = some uAdminReporter ∧
    uAdminReporter.role = "admin" ∧
    findIssue dbAdminReporter 2 = some iResolvedByAdmin ∧
    iResolvedByAdmin.reporterEmail = "ar@x" ∧
    deleteIssue dbAdminReporter "ar@x" 2 9
      = (.err 400 "Only pending issues can be deleted by reporter", dbAdminReporter) := by
  decide

/-- C5 (amended): deletion succeeds iff (caller is the reporter AND the
issue is pending) OR (caller is NOT the reporter AND the caller's role is
admin) — an admin who reported the issue is held to the pending-only rule;
a successful deletion hard-removes the issue document and appends exactly
one timeline entry keyed to the deleted issue's id recording the deletion,
and a failed request leaves the database unchanged. -/
theorem c5_delete_authorization (db : DB) (callerEmail : String) (id : Nat) (now : Nat)
    (issue : Issue) (user : User)
    (hi : findIssue db id = some issue) (hu : findUser db callerEmail = some user) :
    ((deleteIssue db callerEmail id now).1 = Outcome.ok ↔
      ((callerEmail = issue.reporterEmail ∧ issue.status = "pending") ∨
       (callerEmail ≠ issue.reporterEmail ∧ user.role = "admin"))) ∧
    ((deleteIssue db callerEmail id now).1 = Outcome.ok →
      (deleteIssue db callerEmail id now).2 =
        { db with
          issues := db.issues.eraseP (fun i => i.id == id),
          timeline := db.timeline ++
            [{ issueId := id, status := "deleted",
               message := "Issue deleted by " ++ callerEmail,
               updatedBy := callerEmail, time := now }] }) ∧
    ((deleteIssue db callerEmail id now).1 ≠ Outcome.ok →
      (deleteIssue db callerEmail id now).2 = db) := by
  by_cases hrep : callerEmail = issue.reporterEmail
  · subst hrep
    by_cases hpend : issue.status = "pending"
    · have hres : deleteIssue db issue.reporterEmail id now =
          (Outcome.ok, doDelete db issue.reporterEmail id now) := by
        simp [deleteIssue, hi, hu, hpend]
      refine ⟨?_, ?_, ?_⟩
      · simp [hres, hpend]
      · intro _
        rw [hres]
        rfl
      · intro hne
        exact absurd (by rw [hres]) hne
    · have hres : deleteIssue db issue.reporterEmail id now =
          (.err 400 "Only pending issues can be deleted by reporter", db) := by
        simp [deleteIssue, hi, hu, hpend]
      refine ⟨?_, ?_, ?_⟩
      · simp [hres, hpend]
      · intro hok
        rw [hres] at hok
        exact absurd hok (by simp)
      · intro _
        rw [hres]
  · by_cases hadm : user.role = "admin"
    · have hres : deleteIssue db callerEmail id now =
          (Outcome.ok, doDelete db callerEmail id now) := by
        simp [deleteIssue, hi, hu, hrep, hadm]
      refine ⟨?_, ?_, ?_⟩
      · simp [hres, hrep, hadm]
      · intro _
        rw [hres]
        rfl
      · intro hne
        exact absurd (by rw [hres]) hne
    · have hres : deleteIssue db callerEmail id now = (.err 403 "Unauthorized", db) := by
        simp [deleteIssue, hi, hu, hrep, hadm]
      refine ⟨?_, ?_, ?_⟩
      · simp [hres, hrep, hadm]
      · intro hok
        rw [hres] at hok
        exact absurd hok (by simp)
      · intro _
        rw [hres]

theorem c5_delete_authorization_witness :
    findIssue db1 1 = some iPending ∧
    findUser db1 "cit@x" = some uCitizen ∧
    iPending.reporterEmail = "cit@x" ∧
    iPending.status = "pending" ∧
    (deleteIssue db1 "cit@x" 1 9).1 = Outcome.ok ∧
    (deleteIssue db1 "cit@x" 1 9).2.timeline =
      [{ issueId := 1, status := "deleted", message := "Issue deleted by cit@x",
         updatedBy := "cit@x", time := 9 }] := by
  refine ⟨rfl, rfl, rfl, rfl, ?_, ?_⟩
  · exact ((c5_delete_authorization db1 "cit@x" 1 9 iPending uCitizen rfl rfl).1).mpr
      (Or.inl ⟨rfl, rfl⟩)
  · have hok : (deleteIssue db1 "cit@x" 1 9).1 = Outcome.ok :=
      ((c5_delete_authorization db1 "cit@x" 1 9 iPending uCitizen rfl rfl).1).mpr
        (Or.inl ⟨rfl, rfl⟩)
    have h := (c5_delete_authorization db1 "cit@x" 1 9 iPending uCitizen rfl rfl).2.1 hok
    rw [h]
    decide

/-- C6: boost is idempotent at the flag level — a boost request on an
existing issue with `isBoosted` already true or priority already "high" is
rejected AlreadyBoosted with the database unchanged; a successful boost
records exactly one Payment with purpose `issue_boost`, sets priority high
and `isBoosted` true, and writes one timeline entry; and a second boost on
the same issue is then rejected AlreadyBoosted leaving everything unchanged,
so two attempts grow the payment ledger by exactly one entry. -/
theorem c6_boost_idempotent (db : DB) (caller : ReqUser) (id : Nat) (pid : String)
    (amt now now2 : Nat) (issue : Issue)
    (hb : caller.isBlocked = false) (hp : pid ≠ "") (ha : amt ≠ 0)
    (hi : findIssue db id = some issue) :
    (issue.isBoosted = true ∨ issue.priority = "high" →
      boostIssue db caller id pid amt now = (.err 400 "Issue already boosted", db)) ∧
    (issue.isBoosted = false → issue.priority ≠ "high" →
      (boostIssue db caller id pid amt now).1 = Outcome.ok ∧
      (boostIssue db caller id pid amt now).2.payments = db.payments ++
        [{ issueId := some id, userEmail := caller.email, paymentId := pid,
           amount := amt, purpose := "issue_boost", date := now }] ∧
      findIssue (boostIssue db caller id pid amt now).2 id =
        some { issue with priority := "high", isBoosted := true } ∧
      (boostIssue db caller id pid amt now).2.timeline = db.timeline ++
        [{ issueId := id, status := "boosted", message := "Priority boosted via payment",
           updatedBy := caller.email, time := now }] ∧
      boostIssue (boostIssue db caller id pid amt now).2 caller id pid amt now2 =
        (.err 400 "Issue already boosted", (boostIssue db caller id pid amt now).2)) := by
  have hA : issue.isBoosted = true ∨ issue.priority = "high" →
      boostIssue db caller id pid amt now = (.err 400 "Issue already boosted", db) := by
    intro h
    rcases h with h | h
    · simp [boostIssue, hb, hp, ha, hi, h]
    · simp [boostIssue, hb, hp, ha, hi, h]
  refine ⟨hA, ?_⟩
  intro h1 h2
  have hres2 : (boostIssue db caller id pid amt now).2 =
      { db with
        payments := db.payments ++
          [{ issueId := some id, userEmail := caller.email, paymentId := pid,
             amount := amt, purpose := "issue_boost", date := now }],
        issues := updateFirst (fun i => i.id == id)
          (fun i => { i with priority := "high", isBoosted := true }) db.issues,
        timeline := db.timeline ++
          [{ issueId := id, status := "boosted", message := "Priority boosted via payment",
             updatedBy := caller.email, time := now }] } := by
    simp [boostIssue, hb, hp, ha, hi, h1, h2]
  have hi' : db.issues.find? (fun i => i.id == id) = some issue := hi
  have hstep := updateFirst_find? (fun i => i.id == id)
    (fun i => { i with priority := "high", isBoosted := true })
    db.issues (fun a ha => ha)
  have hfind : findIssue (boostIssue db caller id pid amt now).2 id =
      some { issue with priority := "high", isBoosted := true } := by
    show (boostIssue db caller id pid amt now).2.issues.find? (fun i => i.id == id) = _
    rw [hres2]
    exact hstep.trans (by rw [hi']; rfl)
  refine ⟨by simp [boostIssue, hb, hp, ha, hi, h1, h2], by rw [hres2], hfind, by rw [hres2], ?_⟩
  generalize hgen : (boostIssue db caller id pid amt now).2 = db1 at hfind ⊢
  simp [boostIssue, hb, hp, ha, hfind]

theorem c6_boost_idempotent_witness :
    reqCitizen.isBlocked = false ∧
    ("pay_1" : String) ≠ "" ∧ (500 : Nat) ≠ 0 ∧
    findIssue db1 1 = some iPending ∧
    iPending.isBoosted = false ∧ iPending.priority ≠ "high" ∧
    (boostIssue db1 reqCitizen 1 "pay_1" 500 3).1 = Outcome.ok ∧
    (boostIssue db1 reqCitizen 1 "pay_1" 500 3).2.payments =
      [{ issueId := some 1, userEmail := "cit@x", paymentId := "pay_1",
         amount := 500, purpose := "issue_boost", date := 3 }] ∧
    boostIssue (boostIssue db1 reqCitizen 1 "pay_1" 500 3).2 reqCitizen 1 "pay_1" 500 4 =
      (.err 400 "Issue already boosted", (boostIssue db1 reqCitizen 1 "pay_1" 500 3).2) := by
  have h := (c6_boost_idempotent db1 reqCitizen 1 "pay_1" 500 3 4 iPending
    rfl (by decide) (by decide) rfl).2 rfl (by decide)
  refine ⟨rfl, by decide, by decide, rfl, rfl, by decide, h.1, ?_, h.2.2.2.2⟩
  have hp := h.2.1
  simpa using hp

/-- C7: on an admin assignment request with a non-empty target email — if
the target email does not resolve to a user with role staff the request
fails NotFound; if it does and the issue exists, the request succeeds, the
issue's `assignedStaff` becomes that email, its status is set to
"in-progress" (in particular a pending issue advances pending→in-progress),
and one timeline entry is appended. -/
theorem c7_assign_staff (db : DB) (caller : ReqUser) (id : Nat) (staffEmail : String)
    (now : Nat) (hr : caller.role = "admin") (hs : staffEmail ≠ "") :
    (db.users.find? (fun u => u.email == staffEmail && u.role == "staff") = none →
      assignIssue db caller id staffEmail now = (.err 404 "Staff not found", db)) ∧
    (∀ st, db.users.find? (fun u => u.email == staffEmail && u.role == "staff") = some st →
      ∀ issue, findIssue db id = some issue →
        (assignIssue db caller id staffEmail now).1 = Outcome.ok ∧
        findIssue (assignIssue db caller id staffEmail now).2 id =
          some { issue with assignedStaff := some staffEmail, status := "in-progress" } ∧
        (assignIssue db caller id staffEmail now).2.timeline = db.timeline ++
          [{ issueId := id, status := "in-progress",
             message := "Assigned to staff " ++ staffEmail,
             updatedBy := caller.email, time := now }]) := by
  constructor
  · intro hnone
    simp [assignIssue, hr, hs, hnone]
  · intro st hst issue hissue
    have hres2 : (assignIssue db caller id staffEmail now).2 =
        { db with
          issues := updateFirst (fun i => i.id == id)
            (fun i => { i with assignedStaff := some staffEmail,
                               status := "in-progress" }) db.issues,
          timeline := db.timeline ++
            [{ issueId := id, status := "in-progress",
               message := "Assigned to staff " ++ staffEmail,
               updatedBy := caller.email, time := now }] } := by
      simp [assignIssue, hr, hs, hst, hissue]
    have hi' : db.issues.find? (fun i => i.id == id) = some issue := hissue
    have hstep := updateFirst_find? (fun i => i.id == id)
      (fun i => { i with assignedStaff := some staffEmail, status := "in-progress" })
      db.issues (fun a ha => ha)
    refine ⟨by simp [assignIssue, hr, hs, hst, hissue], ?_, by rw [hres2]⟩
    show (assignIssue db caller id staffEmail now).2.issues.find? (fun i => i.id == id) = _
    rw [hres2]
    exact hstep.trans (by rw [hi']; rfl)

theorem c7_assign_staff_witness :
    reqAdmin.role = "admin" ∧
    ("staff@x" : String) ≠ "" ∧
    db1.users.find? (fun u => u.email == "staff@x" && u.role == "staff") = some uStaff ∧
    findIssue db1 1 = some iPending ∧
    iPending.status = "pending" ∧
    (assignIssue db1 reqAdmin 1 "staff@x" 6).1 = Outcome.ok ∧
    findIssue (assignIssue db1 reqAdmin 1 "staff@x" 6).2 1 =
      some { iPending with assignedStaff := some "staff@x", status := "in-progress" } := by
  have h := (c7_assign_staff db1 reqAdmin 1 "staff@x" 6 rfl (by decide)).2
    uStaff rfl iPending rfl
  exact ⟨rfl, by decide, rfl, rfl, rfl, h.1, h.2.1⟩

/-- C8 counterexample: the claim "reporterEmail never changes through any
update path except direct admin edit" fails: the edit route is
reporter-only (an admin who is not the reporter is rejected), yet it
`$set`s the raw request body, so the reporter themselves can overwrite
`reporterEmail` — a change through a non-admin path. -/
theorem c8_reporter_email_counterexample :
    (findUser db1 "cit@x").map User.role = some "citizen" ∧
    findIssue db1 1 = some iPending ∧
    iPending.reporterEmail = "cit@x" ∧
    (editIssue db1 "cit@x" 1 bodyStealReporter).1 = Outcome.ok ∧
    findIssue (editIssue db1 "cit@x" 1 bodyStealReporter).2 1 =
      some { iPending with reporterEmail := "evil@x" } ∧
    ("evil@x" : String) ≠ "cit@x" := by decide

/-- C8 (amended): every edit request by a caller whose email differs from
the issue's `reporterEmail` fails Forbidden (there is no admin bypass on the
edit route), a reporter's edit writes no timeline entry, and none of the
other mutation paths (status update, upvote, assignment, boost) ever changes
any issue's `reporterEmail`; but the reporter's own edit CAN change
`reporterEmail`, since the handler `$set`s arbitrary body fields. -/
theorem c8_reporter_email_paths (db : DB) (callerEmail : String) (id : Nat)
    (body : Body) (issue : Issue) (hi : findIssue db id = some issue) :
    (issue.reporterEmail ≠ callerEmail →
      editIssue db callerEmail id body = (.err 403 "Not your issue", db)) ∧
    ((editIssue db callerEmail id body).2.timeline = db.timeline) ∧
    (∀ ce s n t, (updateIssueStatus db ce id s n t).2.issues.map
        (fun i => (i.id, i.reporterEmail))
      = db.issues.map (fun i => (i.id, i.reporterEmail))) ∧
    (∀ ce, (upvoteIssue db ce id).2.issues.map (fun i => (i.id, i.reporterEmail))
      = db.issues.map (fun i => (i.id, i.reporterEmail))) ∧
    (∀ c : ReqUser, ∀ se t, (assignIssue db c id se t).2.issues.map
        (fun i => (i.id, i.reporterEmail))
      = db.issues.map (fun i => (i.id, i.reporterEmail))) ∧
    (∀ c : ReqUser, ∀ pid a t, (boostIssue db c id pid a t).2.issues.map
        (fun i => (i.id, i.reporterEmail))
      = db.issues.map (fun i => (i.id, i.reporterEmail))) := by
  refine ⟨?_, ?_, ?_, ?_, ?_, ?_⟩
  · intro hne
    simp [editIssue, hi, hne]
  · unfold editIssue
    split
    · rfl
    · split
      · rfl
      · rfl
  · intro ce s n t
    unfold updateIssueStatus
    repeat' split
    all_goals
      first
        | rfl
        | exact updateFirst_map _ _ _ db.issues (fun a _ => rfl)
  · intro ce
    unfold upvoteIssue
    repeat' split
    all_goals
      first
        | rfl
        | exact updateFirst_map _ _ _ db.issues (fun a _ => rfl)
  · intro c se t
    unfold assignIssue
    repeat' split
    all_goals
      first
        | rfl
        | exact updateFirst_map _ _ _ db.issues (fun a _ => rfl)
  · intro c pid a t
    unfold boostIssue
    repeat' split
    all_goals
      first
        | rfl
        | exact updateFirst_map _ _ _ db.issues (fun a _ => rfl)

theorem c8_reporter_email_paths_witness :
    findIssue db1 1 = some iPending ∧
    iPending.reporterEmail ≠ "staff@x" ∧
    editIssue db1 "staff@x" 1 bodyStealReporter = (.err 403 "Not your issue", db1) ∧
    (updateIssueStatus db1 "admin@x" 1 "closed" "" 5).2.issues.map
        (fun i => (i.id, i.reporterEmail))
      = db1.issues.map (fun i => (i.id, i.reporterEmail)) := by
  have h := c8_reporter_email_paths db1 "staff@x" 1 bodyStealReporter iPending rfl
  exact ⟨rfl, by decide, h.1 (by decide), h.2.2.1 "admin@x" "closed" "" 5⟩

end Novapress
